import Mathlib

/-!
Verification of `server.py`, the development HTTP server of the Morning
Routine Tracker repository.  The request handler and the `main` startup
routine are embedded shallowly: a response is the ordered list of HTTP
messages the handler writes on one connection, and startup is a function
of the working-directory contents together with the event that ends the
`try` block around the serve loop.
-/

namespace MorningRoutine

/-- The working directory, as a finite map from filename to raw file
contents (`server.py` serves from `os.getcwd()`).  File contents are
strings of bytes; byte-identical transfer is equality here. -/
abbrev FS := List (String × String)

/-- One HTTP message written to the client socket: a status line, the
header block in emission order, and the body bytes.  (`send_response`
also emits fixed `Server` and `Date` headers; they are constant overhead
on every message and are omitted from the header lists.) -/
structure HttpMessage where
  status : Nat
  headers : List (String × String)
  body : String
deriving DecidableEq

/-- Everything the handler writes into the stream for one request.
Normally a single message; a handler that completes a response and then
still calls `send_error` writes two messages back to back. -/
abbrev Response := List HttpMessage

/-- The status line the client parses first from the stream. -/
def clientStatus (r : Response) : Option Nat :=
  r.head?.map HttpMessage.status

/-- All values appearing under a `Content-Type` header of a message, in
emission order. -/
def contentTypeValues (m : HttpMessage) : List String :=
  m.headers.filterMap fun h => if h.1 = "Content-Type" then some h.2 else none

/-- Python `str.endswith`, on the underlying character sequence. -/
def pyEndswith (s suffix : String) : Bool :=
  suffix.data.isSuffixOf s.data

/-- Python `str.startswith`, on the underlying character sequence. -/
def pyStartswith (s pre : String) : Bool :=
  pre.data.isPrefixOf s.data

/-- The part of `s` before the first occurrence of character `c`
(all of `s` when `c` does not occur): Python `s.split(c, 1)[0]`. -/
def beforeChar (c : Char) (s : String) : String :=
  String.mk (s.data.takeWhile fun a => a != c)

/-- `server.py` lines 21-24: the cache and CORS headers that the
overridden `end_headers` attaches to every response. -/
def pwaHeaders : List (String × String) :=
  [("Cache-Control", "no-cache"),
   ("Access-Control-Allow-Origin", "*"),
   ("Access-Control-Allow-Methods", "GET, POST, OPTIONS"),
   ("Access-Control-Allow-Headers", "Content-Type")]

/-- `server.py` lines 27-32: the extension-based `Content-Type` override
in `end_headers`, computed from `self.path`, the full request target. -/
def ctOverride (path : String) : List (String × String) :=
  if pyEndswith path ".js" then [("Content-Type", "application/javascript")]
  else if pyEndswith path ".json" then [("Content-Type", "application/json")]
  else if pyEndswith path ".png" then [("Content-Type", "image/png")]
  else []

/-- `MorningRoutineHandler.end_headers`: the headers appended after the
ones the responder itself buffered, just before the header block is
completed. -/
def endHeadersExtra (path : String) : List (String × String) :=
  pwaHeaders ++ ctOverride path

/-- The HTML explanation page of the standard library's error responder
(rendered without the explanation paragraph, which no claim touches). -/
def errorPage (code : Nat) (message : String) : String :=
  s!"<!DOCTYPE HTML><html><head><title>Error response</title></head><body><h1>Error response</h1><p>Error code: {code}</p><p>Message: {message}.</p></body></html>"

/-- Models `BaseHTTPRequestHandler.send_error` from the Python standard
library: a fresh response with the error status, the error content type
and `Connection: close`, the header block completed through the
overridden `end_headers` (so it also carries the cache/CORS headers and
the extension override for the request path), and an HTML explanation
body for codes such as 404 that allow one. -/
def sendError (path : String) (code : Nat) (message : String) : HttpMessage :=
  { status := code
  , headers := [("Content-Type", "text/html;charset=utf-8"), ("Connection", "close")]
      ++ endHeadersExtra path
  , body := errorPage code message }

/-- Models `SimpleHTTPRequestHandler`'s content-type inference
(`mimetypes` guesses) for the file types this app contains; anything
else falls back to the generic default. -/
def guessType (file : String) : String :=
  if pyEndswith file ".html" then "text/html"
  else if pyEndswith file ".css" then "text/css"
  else if pyEndswith file ".js" then "text/javascript"
  else if pyEndswith file ".json" then "application/json"
  else if pyEndswith file ".png" then "image/png"
  else "application/octet-stream"

/-- Models `SimpleHTTPRequestHandler.translate_path`: the query string
and fragment of the request target are dropped and the remainder is
resolved relative to the working directory; a bare directory request
resolves to its `index.html` default document. -/
def translatePath (p : String) : String :=
  let noQuery := beforeChar '?' p
  let noFrag := beforeChar '#' noQuery
  let rel := if pyStartswith noFrag "/" then String.mk (noFrag.data.drop 1) else noFrag
  if rel = "" then "index.html" else rel

/-- Models the default GET handling inherited from
`SimpleHTTPRequestHandler` (`super().do_GET()`), per the spec's account
of default static serving: the translated file is streamed with a 200
and its guessed content type, or a 404 error response is sent.  Every
header block is completed through the overridden `end_headers`, which
sees the raw request path `path`. -/
def defaultServe (fs : FS) (path : String) : Response :=
  let file := translatePath path
  match fs.lookup file with
  | some content =>
      [{ status := 200
       , headers := [("Content-Type", guessType file),
                     ("Content-Length", toString content.length)]
           ++ endHeadersExtra path
       , body := content }]
  | none => [sendError path 404 "File not found"]

/-- `server.py` lines 42-53: the hand-written `/sw.js` response.  The
200 status line and the full header block are emitted before the file is
opened, so a missing file leaves the completed 200 response in the
stream and then appends the `send_error(404)` message after it. -/
def swResponse (fs : FS) : Response :=
  let head : HttpMessage :=
    { status := 200
    , headers := [("Content-Type", "application/javascript"),
                  ("Service-Worker-Allowed", "/")] ++ endHeadersExtra "/sw.js"
    , body := "" }
  match fs.lookup "sw.js" with
  | some content => [{ head with body := content }]
  | none => [head, sendError "/sw.js" 404 "Not Found"]

/-- `server.py` lines 56-66: the hand-written `/manifest.json` response,
with the same structure as the `/sw.js` one.  Its header block, being
completed through the overridden `end_headers`, also picks up the
`.json` extension override. -/
def manifestResponse (fs : FS) : Response :=
  let head : HttpMessage :=
    { status := 200
    , headers := ("Content-Type", "application/manifest+json")
        :: endHeadersExtra "/manifest.json"
    , body := "" }
  match fs.lookup "manifest.json" with
  | some content => [{ head with body := content }]
  | none => [head, sendError "/manifest.json" 404 "Not Found"]

/-- `MorningRoutineHandler.do_GET` (`server.py` lines 36-69): the root
path is rewritten to `/index.html`, the two special paths get their
hand-written responses, everything else falls through to the default
handling. -/
def do_GET (fs : FS) (path : String) : Response :=
  let path := if path = "/" then "/index.html" else path
  if path = "/sw.js" then swResponse fs
  else if path = "/manifest.json" then manifestResponse fs
  else defaultServe fs path

/-- Models the inherited `SimpleHTTPRequestHandler.do_HEAD`: the same
status and header computation as default GET handling, with the body
suppressed (`send_error` also suppresses its body on HEAD). -/
def do_HEAD (fs : FS) (path : String) : Response :=
  (defaultServe fs path).map fun m => { m with body := "" }

/-- Dispatch of the underlying generic handler for non-GET methods:
`do_HEAD` is inherited from `SimpleHTTPRequestHandler`, and any method
without a `do_*` implementation gets a 501 error from
`BaseHTTPRequestHandler.handle_one_request`. -/
def inheritedHandle (fs : FS) (method path : String) : Response :=
  if method = "HEAD" then do_HEAD fs path
  else [sendError path 501 s!"Unsupported method {method}"]

/-- One request dispatched through `MorningRoutineHandler`: the class
overrides only `do_GET` (and `end_headers`, through which every branch
above already routes), so every other method is handled by the
superclasses. -/
def handle (fs : FS) (method path : String) : Response :=
  if method = "GET" then do_GET fs path
  else inheritedHandle fs method path

/-- `server.py` line 13. -/
def PORT : Nat := 8000

/-- `server.py` line 75. -/
def required_files : List String :=
  ["index.html", "styles.css", "app.js", "manifest.json", "sw.js"]

/-- `server.py` line 76: the required files absent from the working
directory. -/
def missing_files (fs : FS) : List String :=
  required_files.filter fun f => (fs.lookup f).isNone

/-- `server.py` lines 79-82: the report printed when required files are
missing. -/
def missingReport (missing : List String) : List String :=
  "❌ Missing required files:"
    :: missing.map (fun f => s!"   - {f}")
    ++ ["\nPlease ensure all files are in the current directory."]

/-- `server.py` lines 86-109: the console lines printed between the
required-files check and entering the `try` block, starting with the
optional icons-directory warning.  Apostrophes appearing in the console
text are elided in this rendering; no claim concerns them. -/
def startupBanner (fs : FS) : List String :=
  (if (fs.lookup "icons").isNone then
     ["⚠️  Warning: icons directory not found. PWA icons may not load properly."]
   else []) ++
  ["🌅 Morning Routine Tracker - Development Server",
   String.mk (List.replicate 50 (Char.ofNat 61)),
   s!"Starting server on port {PORT}...",
   s!"Access your app at: http://localhost:{PORT}",
   "\n📱 PWA Features:",
   "   ✅ Service Worker for offline functionality",
   "   ✅ Web App Manifest for installation",
   "   ✅ Responsive design for mobile/desktop",
   "   ✅ Local data storage",
   "\n🧠 Neuroscience Features:",
   "   ✅ 5-4-3-2-1 Activation Counter",
   "   ✅ Circadian Rhythm Optimization",
   "   ✅ Dopamine Reward System",
   "   ✅ Habit Formation Tracking",
   "\n💡 Usage Tips:",
   "   - Use Chrome/Edge for best PWA experience",
   "   - Click Install App in browser for native feel",
   "   - Enable notifications for routine reminders",
   "   - Works offline after first visit",
   "\nPress Ctrl+C to stop the server",
   String.mk (List.replicate 50 (Char.ofNat 61))]

/-- `server.py` lines 113-121: the messages printed once the port is
bound, including the best-effort browser launch (whose failure is caught
and reduced to a note; the fallback line prints the literal text
`{PORT}` because the source omits the f-string marker there). -/
def servingLines (browserOpened : Bool) : List String :=
  ["✅ Server started successfully!",
   s!"🌐 Open http://localhost:{PORT} in your browser"] ++
  (if browserOpened then ["🚀 Opening browser automatically..."]
   else ["🔍 Please manually open http://localhost:{PORT} in your browser"])

/-- The event that ends the `try` block of `main`: an `OSError`
(identified by its errno) raised while creating or running the TCP
server — in practice the bind failure — or the `KeyboardInterrupt` that
stops a running server (`browserOpened` records whether the best-effort
browser launch succeeded earlier). -/
inductive RunEvent where
  | osError (errno : Nat)
  | interrupted (browserOpened : Bool)
deriving DecidableEq

/-- The observable outcome of `main`: the console lines printed, whether
the port was ever bound, and whether an exception escaped `main` to its
caller. -/
structure MainResult where
  output : List String
  boundPort : Bool
  unhandled : Bool
deriving DecidableEq

/-- `main` (`server.py` lines 71-133): the required-files check and
report, the banner, and the exception handling around the serve loop.
Both `except` arms catch their exception, so no event modelled here
escapes to the caller.  An `OSError` with errno 48 — the value the
source designates as "Port already in use" — gets the specific
suggestion; any other errno gets the generic message with the error
detail. -/
def main (fs : FS) (ev : RunEvent) : MainResult :=
  let missing := missing_files fs
  if missing.isEmpty then
    match ev with
    | .osError e =>
        { output := startupBanner fs ++
            (if e = 48 then
               [s!"❌ Port {PORT} is already in use.",
                "Try closing other applications or use a different port."]
             else [s!"❌ Error starting server: {e}"])
        , boundPort := false
        , unhandled := false }
    | .interrupted browserOpened =>
        { output := startupBanner fs ++ servingLines browserOpened ++
            ["\n\n🛑 Server stopped by user",
             "Thanks for using Morning Routine Tracker! 🌅"]
        , boundPort := true
        , unhandled := false }
  else
    { output := missingReport missing
    , boundPort := false
    , unhandled := false }

/-! ## Helper lemmas -/

lemma pwa_sub_pre (pre : List (String × String)) (p : String) :
    pwaHeaders ⊆ pre ++ endHeadersExtra p := fun _ ha =>
  List.mem_append_right pre (List.mem_append_left _ ha)

/-! ## Claims -/

/-- C4: for every working-directory state, a GET to `/` yields the same
response (status, headers, body) as a GET to `/index.html`, because the
incoming path `/` is rewritten to `/index.html` before any further
processing. -/
theorem root_equals_index (fs : FS) :
    do_GET fs "/" = do_GET fs "/index.html" := rfl

/-- C1 (counterexample): for a GET to `/sw.js` with `sw.js` absent, the
first status line the client parses is 200, not a not-found status, and
the stream contains a message with a nonempty body, contradicting the
claim of a not-found status with no body. -/
theorem sw_absent_not_404_counterexample :
    clientStatus (do_GET [] "/sw.js") = some 200
  ∧ clientStatus (do_GET ([] : FS) "/sw.js") ≠ some 404
  ∧ ¬ (∀ m ∈ do_GET ([] : FS) "/sw.js", m.body = "") := by decide

/-- C1 (amended): for a GET to `/sw.js` with `sw.js` absent, the handler
has already emitted a complete 200 header block (javascript content type
and service-worker scope header) before trying to open the file, and
then appends the full `send_error(404)` message — whose status is 404
and whose HTML body is nonempty — after it in the same stream. -/
theorem sw_absent_appends_error_after_200 (fs : FS)
    (h : fs.lookup "sw.js" = none) :
    do_GET fs "/sw.js" =
      [{ status := 200
       , headers := [("Content-Type", "application/javascript"),
                     ("Service-Worker-Allowed", "/")] ++ endHeadersExtra "/sw.js"
       , body := "" },
       sendError "/sw.js" 404 "Not Found"]
  ∧ (sendError "/sw.js" 404 "Not Found").status = 404
  ∧ (sendError "/sw.js" 404 "Not Found").body ≠ "" := by
  refine ⟨?_, rfl, by decide⟩
  have e : do_GET fs "/sw.js" = swResponse fs := rfl
  rw [e]
  unfold swResponse
  rw [h]

/-- C1 (witness): the amended statement evaluated at the empty working
directory. -/
theorem sw_absent_appends_error_after_200_witness :
    do_GET [] "/sw.js" =
      [{ status := 200
       , headers := [("Content-Type", "application/javascript"),
                     ("Service-Worker-Allowed", "/")] ++ endHeadersExtra "/sw.js"
       , body := "" },
       sendError "/sw.js" 404 "Not Found"]
  ∧ (sendError "/sw.js" 404 "Not Found").status = 404
  ∧ (sendError "/sw.js" 404 "Not Found").body ≠ "" :=
  sw_absent_appends_error_after_200 [] rfl

/-- C2 (counterexample): the `/manifest.json` response carries two
`Content-Type` headers — `application/manifest+json` from the
hand-written response and then `application/json` from the `.json`
extension override in `end_headers` — so its content type is not the
single value `application/manifest+json` the claim states. -/
theorem manifest_double_content_type_counterexample :
    (do_GET [("manifest.json", "M")] "/manifest.json").map contentTypeValues
      = [["application/manifest+json", "application/json"]]
  ∧ (do_GET [("manifest.json", "M")] "/manifest.json").map contentTypeValues
      ≠ [["application/manifest+json"]] := by decide

/-- C2 (amended): for a GET to `/manifest.json` with the file present,
the response is a single message with status 200 and a body
byte-identical to the file, whose `Content-Type` values are
`application/manifest+json` followed by `application/json` — the
extension override does fire on this path because it matches `.json`. -/
theorem manifest_present_response (fs : FS) (c : String)
    (h : fs.lookup "manifest.json" = some c) :
    (do_GET fs "/manifest.json").map HttpMessage.status = [200]
  ∧ (do_GET fs "/manifest.json").map HttpMessage.body = [c]
  ∧ (do_GET fs "/manifest.json").map contentTypeValues
      = [["application/manifest+json", "application/json"]] := by
  have e : do_GET fs "/manifest.json" = manifestResponse fs := rfl
  rw [e]
  unfold manifestResponse
  rw [h]
  exact ⟨rfl, rfl, rfl⟩

/-- C2 (witness): the amended statement evaluated at a one-file working
directory. -/
theorem manifest_present_response_witness :
    (do_GET [("manifest.json", "M")] "/manifest.json").map HttpMessage.status = [200]
  ∧ (do_GET [("manifest.json", "M")] "/manifest.json").map HttpMessage.body = ["M"]
  ∧ (do_GET [("manifest.json", "M")] "/manifest.json").map contentTypeValues
      = [["application/manifest+json", "application/json"]] :=
  manifest_present_response [("manifest.json", "M")] "M" rfl

/-- C7: for a GET to `/sw.js` with the file present, the response is a
single message with status 200, every `Content-Type` value equal to
`application/javascript`, a `Service-Worker-Allowed` header equal to
`/`, and a body byte-identical to the file contents. -/
theorem sw_present_response (fs : FS) (c : String)
    (h : fs.lookup "sw.js" = some c) :
    (do_GET fs "/sw.js").map HttpMessage.status = [200]
  ∧ (do_GET fs "/sw.js").map HttpMessage.body = [c]
  ∧ (do_GET fs "/sw.js").map contentTypeValues
      = [["application/javascript", "application/javascript"]]
  ∧ ∀ m ∈ do_GET fs "/sw.js", ("Service-Worker-Allowed", "/") ∈ m.headers := by
  have e : do_GET fs "/sw.js" = swResponse fs := rfl
  rw [e]
  unfold swResponse
  rw [h]
  refine ⟨rfl, rfl, rfl, ?_⟩
  intro m hm
  rw [List.mem_singleton] at hm
  subst hm
  show ("Service-Worker-Allowed", "/") ∈
    [("Content-Type", "application/javascript"),
     ("Service-Worker-Allowed", "/")] ++ endHeadersExtra "/sw.js"
  exact List.mem_append_left _ (by decide)

/-- C7 (witness): the statement evaluated at a one-file working
directory, with the header clause instantiated at the one message of the
response. -/
theorem sw_present_response_witness :
    ((do_GET [("sw.js", "SW")] "/sw.js").map HttpMessage.status = [200]
  ∧ (do_GET [("sw.js", "SW")] "/sw.js").map HttpMessage.body = ["SW"]
  ∧ (do_GET [("sw.js", "SW")] "/sw.js").map contentTypeValues
      = [["application/javascript", "application/javascript"]])
  ∧ ("Service-Worker-Allowed", "/") ∈
      ({ status := 200
       , headers := [("Content-Type", "application/javascript"),
                     ("Service-Worker-Allowed", "/")] ++ endHeadersExtra "/sw.js"
       , body := "SW" } : HttpMessage).headers :=
  have t := sw_present_response [("sw.js", "SW")] "SW" rfl
  ⟨⟨t.1, t.2.1, t.2.2.1⟩, t.2.2.2 _ (by decide)⟩

/-- C3: when startup hits an `OSError` carrying the errno the source
designates as "Port already in use" (48), the error is caught, the
specific suggestion — close other applications or use a different port —
is printed together with the conflict report, the port is not bound, and
`main` returns without an unhandled exception. -/
theorem port_in_use_reported_cleanly (fs : FS) (e : Nat)
    (hmiss : missing_files fs = []) (he : e = 48) :
    (main fs (.osError e)).unhandled = false
  ∧ (main fs (.osError e)).boundPort = false
  ∧ "❌ Port 8000 is already in use." ∈ (main fs (.osError e)).output
  ∧ "Try closing other applications or use a different port."
      ∈ (main fs (.osError e)).output := by
  subst he
  have hmain : main fs (.osError 48)
      = { output := startupBanner fs ++
            ["❌ Port 8000 is already in use.",
             "Try closing other applications or use a different port."]
        , boundPort := false
        , unhandled := false } := by
    simp only [main]
    rw [hmiss]
    rfl
  rw [hmain]
  exact ⟨rfl, rfl,
    List.mem_append_right _ (by decide),
    List.mem_append_right _ (by decide)⟩

/-- C3 (witness): the statement evaluated at a working directory holding
all required files and errno 48. -/
theorem port_in_use_reported_cleanly_witness :
    (main [("index.html", "h"), ("styles.css", "c"), ("app.js", "a"),
           ("manifest.json", "m"), ("sw.js", "s")] (.osError 48)).unhandled = false
  ∧ (main [("index.html", "h"), ("styles.css", "c"), ("app.js", "a"),
           ("manifest.json", "m"), ("sw.js", "s")] (.osError 48)).boundPort = false
  ∧ "❌ Port 8000 is already in use."
      ∈ (main [("index.html", "h"), ("styles.css", "c"), ("app.js", "a"),
               ("manifest.json", "m"), ("sw.js", "s")] (.osError 48)).output
  ∧ "Try closing other applications or use a different port."
      ∈ (main [("index.html", "h"), ("styles.css", "c"), ("app.js", "a"),
               ("manifest.json", "m"), ("sw.js", "s")] (.osError 48)).output :=
  port_in_use_reported_cleanly
    [("index.html", "h"), ("styles.css", "c"), ("app.js", "a"),
     ("manifest.json", "m"), ("sw.js", "s")] 48 (by decide) rfl

/-- C6: when required files are missing, `main` prints exactly the
missing-files report — whose file lines are one per missing file — where
the missing files are precisely the required files absent from the
working directory; it does not bind the port and returns without an
unhandled exception, whatever event the serve loop would have seen. -/
theorem missing_files_abort (fs : FS) (ev : RunEvent)
    (h : missing_files fs ≠ []) :
    (main fs ev).output = missingReport (missing_files fs)
  ∧ (∀ f, f ∈ missing_files fs ↔ f ∈ required_files ∧ fs.lookup f = none)
  ∧ (main fs ev).boundPort = false
  ∧ (main fs ev).unhandled = false := by
  have hie : (missing_files fs).isEmpty = false := by
    rw [List.isEmpty_eq_false]
    exact h
  have hmain : main fs ev
      = { output := missingReport (missing_files fs)
        , boundPort := false
        , unhandled := false } := by
    simp only [main]
    rw [hie]
    rfl
  refine ⟨by rw [hmain], ?_, by rw [hmain], by rw [hmain]⟩
  intro f
  simp [missing_files, List.mem_filter, Option.isNone_iff_eq_none]

/-- C6 (witness): the statement evaluated at the empty working
directory, with the characterization clause instantiated at `sw.js`. -/
theorem missing_files_abort_witness :
    ((main [] (.interrupted true)).output = missingReport (missing_files [])
  ∧ (main [] (.interrupted true)).boundPort = false
  ∧ (main [] (.interrupted true)).unhandled = false)
  ∧ ("sw.js" ∈ missing_files []
      ↔ "sw.js" ∈ required_files ∧ ([] : FS).lookup "sw.js" = none) :=
  have t := missing_files_abort [] (.interrupted true) (by decide)
  ⟨⟨t.1, t.2.2.1, t.2.2.2⟩, t.2.1 "sw.js"⟩

/-- C8: a GET to `/app.js` — served through default static handling —
yields a response every message of which carries a
`Content-Type: application/javascript` header, because the `.js`
extension override in `end_headers` fires for this path. -/
theorem app_js_content_type (fs : FS) (m : HttpMessage)
    (hm : m ∈ do_GET fs "/app.js") :
    ("Content-Type", "application/javascript") ∈ m.headers := by
  have e : do_GET fs "/app.js" = defaultServe fs "/app.js" := rfl
  rw [e] at hm
  simp only [defaultServe] at hm
  rcases hl : fs.lookup (translatePath "/app.js") with _ | c <;> rw [hl] at hm <;>
    simp only [List.mem_singleton] at hm <;> subst hm
  · exact List.mem_append_right _ (by decide)
  · exact List.mem_append_right _ (by decide)

/-- C8 (witness): the statement evaluated at the empty working
directory, where the 404 error response still carries the override. -/
theorem app_js_content_type_witness :
    ("Content-Type", "application/javascript")
      ∈ (sendError "/app.js" 404 "File not found").headers :=
  app_js_content_type [] (sendError "/app.js" 404 "File not found") (by decide)

/-- C9: the hand-written responses apply only to the exact path strings
`/sw.js` and `/manifest.json`: any other GET path (the root aside, which
is rewritten first) falls through to default static serving —
`/sw.js?v=1` in particular — and the extension-based content-type
override matches against the full request target including the query
string, so it does not fire for `/sw.js?v=1` although it fires for
`/sw.js`, while the file looked up on disk has the query stripped. -/
theorem exact_path_dispatch (fs : FS) (p : String)
    (h0 : p ≠ "/") (h1 : p ≠ "/sw.js") (h2 : p ≠ "/manifest.json") :
    do_GET fs p = defaultServe fs p
  ∧ do_GET fs "/sw.js?v=1" = defaultServe fs "/sw.js?v=1"
  ∧ ctOverride "/sw.js?v=1" = []
  ∧ ctOverride "/sw.js" = [("Content-Type", "application/javascript")]
  ∧ translatePath "/sw.js?v=1" = "sw.js" := by
  refine ⟨?_, rfl, by decide, by decide, by decide⟩
  simp only [do_GET, if_neg h0, if_neg h1, if_neg h2]

/-- C9 (witness): the statement evaluated at the empty working directory
and the path `/app.js`. -/
theorem exact_path_dispatch_witness :
    do_GET [] "/app.js" = defaultServe [] "/app.js"
  ∧ do_GET ([] : FS) "/sw.js?v=1" = defaultServe [] "/sw.js?v=1"
  ∧ ctOverride "/sw.js?v=1" = []
  ∧ ctOverride "/sw.js" = [("Content-Type", "application/javascript")]
  ∧ translatePath "/sw.js?v=1" = "sw.js" :=
  exact_path_dispatch [] "/app.js" (by decide) (by decide) (by decide)

lemma pwa_defaultServe (fs : FS) (p : String) :
    ∀ m ∈ defaultServe fs p, pwaHeaders ⊆ m.headers := by
  intro m hm
  simp only [defaultServe] at hm
  rcases hl : fs.lookup (translatePath p) with _ | c <;> rw [hl] at hm <;>
    simp only [List.mem_singleton] at hm <;> subst hm
  · exact pwa_sub_pre _ p
  · exact pwa_sub_pre _ p

lemma pwa_swResponse (fs : FS) :
    ∀ m ∈ swResponse fs, pwaHeaders ⊆ m.headers := by
  intro m hm
  simp only [swResponse] at hm
  rcases hl : fs.lookup "sw.js" with _ | c <;> rw [hl] at hm
  · simp only [List.mem_cons, List.not_mem_nil, or_false] at hm
    rcases hm with hm | hm <;> subst hm
    · exact pwa_sub_pre _ "/sw.js"
    · exact pwa_sub_pre _ "/sw.js"
  · simp only [List.mem_singleton] at hm
    subst hm
    exact pwa_sub_pre _ "/sw.js"

lemma pwa_manifestResponse (fs : FS) :
    ∀ m ∈ manifestResponse fs, pwaHeaders ⊆ m.headers := by
  intro m hm
  simp only [manifestResponse] at hm
  rcases hl : fs.lookup "manifest.json" with _ | c <;> rw [hl] at hm
  · simp only [List.mem_cons, List.not_mem_nil, or_false] at hm
    rcases hm with hm | hm <;> subst hm
    · exact pwa_sub_pre [("Content-Type", "application/manifest+json")] "/manifest.json"
    · exact pwa_sub_pre _ "/manifest.json"
  · simp only [List.mem_singleton] at hm
    subst hm
    exact pwa_sub_pre [("Content-Type", "application/manifest+json")] "/manifest.json"

/-- C5: every message the handler writes — for any method, any request
path, and either outcome of the file lookup — carries the four headers
`Cache-Control: no-cache`, `Access-Control-Allow-Origin: *`,
`Access-Control-Allow-Methods: GET, POST, OPTIONS` and
`Access-Control-Allow-Headers: Content-Type`, because every branch
completes its header block through the overridden `end_headers`. -/
theorem every_response_has_pwa_headers (fs : FS) (method p : String)
    (m : HttpMessage) (hm : m ∈ handle fs method p) :
    pwaHeaders ⊆ m.headers := by
  unfold handle at hm
  by_cases hg : method = "GET"
  · rw [if_pos hg] at hm
    by_cases h0 : p = "/"
    · subst h0
      have e : do_GET fs "/" = defaultServe fs "/index.html" := rfl
      rw [e] at hm
      exact pwa_defaultServe fs "/index.html" m hm
    · by_cases h1 : p = "/sw.js"
      · subst h1
        have e : do_GET fs "/sw.js" = swResponse fs := rfl
        rw [e] at hm
        exact pwa_swResponse fs m hm
      · by_cases h2 : p = "/manifest.json"
        · subst h2
          have e : do_GET fs "/manifest.json" = manifestResponse fs := rfl
          rw [e] at hm
          exact pwa_manifestResponse fs m hm
        · have e : do_GET fs p = defaultServe fs p := by
            simp only [do_GET, if_neg h0, if_neg h1, if_neg h2]
          rw [e] at hm
          exact pwa_defaultServe fs p m hm
  · rw [if_neg hg] at hm
    unfold inheritedHandle at hm
    split at hm
    · unfold do_HEAD at hm
      rcases List.mem_map.mp hm with ⟨m', hm', rfl⟩
      exact pwa_defaultServe fs p m' hm'
    · simp only [List.mem_singleton] at hm
      subst hm
      exact pwa_sub_pre _ p

/-- C5 (witness): the statement evaluated at the empty working directory
for a GET to a nonexistent path, instantiated at the cache header. -/
theorem every_response_has_pwa_headers_witness :
    ("Cache-Control", "no-cache")
      ∈ (sendError "/nope" 404 "File not found").headers :=
  every_response_has_pwa_headers [] "GET" "/nope"
    (sendError "/nope" 404 "File not found")
    (List.mem_singleton.mpr rfl) (by decide)

lemma swa_notin_pwa (v : String) :
    ("Service-Worker-Allowed", v) ∉ pwaHeaders := by
  intro hmem
  simp only [pwaHeaders, List.mem_cons, List.not_mem_nil, or_false] at hmem
  rcases hmem with h | h | h | h <;> (rw [Prod.mk.injEq] at h; exact absurd h.1 (by decide))

lemma swa_notin_ct (p v : String) :
    ("Service-Worker-Allowed", v) ∉ ctOverride p := by
  intro hmem
  unfold ctOverride at hmem
  split at hmem
  · simp only [List.mem_singleton] at hmem
    rw [Prod.mk.injEq] at hmem
    exact absurd hmem.1 (by decide)
  · split at hmem
    · simp only [List.mem_singleton] at hmem
      rw [Prod.mk.injEq] at hmem
      exact absurd hmem.1 (by decide)
    · split at hmem
      · simp only [List.mem_singleton] at hmem
        rw [Prod.mk.injEq] at hmem
        exact absurd hmem.1 (by decide)
      · exact List.not_mem_nil _ hmem

lemma swa_notin_extra (p v : String) :
    ("Service-Worker-Allowed", v) ∉ endHeadersExtra p := by
  intro hmem
  rcases List.mem_append.mp hmem with h | h
  · exact swa_notin_pwa v h
  · exact swa_notin_ct p v h

lemma swa_notin_sendError (p : String) (c : Nat) (msg v : String) :
    ("Service-Worker-Allowed", v) ∉ (sendError p c msg).headers := by
  intro hmem
  rcases List.mem_append.mp hmem with h | h
  · simp only [List.mem_cons, List.not_mem_nil, or_false] at h
    rcases h with h | h <;> (rw [Prod.mk.injEq] at h; exact absurd h.1 (by decide))
  · exact swa_notin_extra p v h

lemma swa_notin_defaultServe (fs : FS) (p v : String) :
    ∀ m ∈ defaultServe fs p, ("Service-Worker-Allowed", v) ∉ m.headers := by
  intro m hm
  simp only [defaultServe] at hm
  rcases hl : fs.lookup (translatePath p) with _ | c <;> rw [hl] at hm <;>
    simp only [List.mem_singleton] at hm <;> subst hm
  · exact swa_notin_sendError p 404 "File not found" v
  · intro hmem
    rcases List.mem_append.mp hmem with h | h
    · simp only [List.mem_cons, List.not_mem_nil, or_false] at h
      rcases h with h | h <;> (rw [Prod.mk.injEq] at h; exact absurd h.1 (by decide))
    · exact swa_notin_extra p v h

/-- C10: for every method other than GET, the handler's behavior is
exactly the inherited generic dispatch — `do_HEAD` from the static
handler, a 501 error for unimplemented methods — with no path rewrite
and no hand-written response: in particular no message it writes ever
carries a `Service-Worker-Allowed` header. -/
theorem non_get_inherited (fs : FS) (method p : String)
    (h : method ≠ "GET") :
    handle fs method p = inheritedHandle fs method p
  ∧ ∀ m ∈ handle fs method p, ∀ v,
      ("Service-Worker-Allowed", v) ∉ m.headers := by
  have he : handle fs method p = inheritedHandle fs method p := by
    unfold handle
    rw [if_neg h]
  refine ⟨he, ?_⟩
  rw [he]
  intro m hm v
  unfold inheritedHandle at hm
  split at hm
  · unfold do_HEAD at hm
    rcases List.mem_map.mp hm with ⟨m', hm', rfl⟩
    exact swa_notin_defaultServe fs p v m' hm'
  · simp only [List.mem_singleton] at hm
    subst hm
    exact swa_notin_sendError p 501 _ v

/-- C10 (witness): the statement evaluated for a POST to `/sw.js` on the
empty working directory, instantiated at the 501 message the generic
handler writes. -/
theorem non_get_inherited_witness :
    handle [] "POST" "/sw.js" = inheritedHandle [] "POST" "/sw.js"
  ∧ ("Service-Worker-Allowed", "/")
      ∉ (sendError "/sw.js" 501 "Unsupported method POST").headers :=
  have t := non_get_inherited [] "POST" "/sw.js" (by decide)
  ⟨t.1, t.2 (sendError "/sw.js" 501 "Unsupported method POST")
    (List.mem_singleton.mpr rfl) "/"⟩

end MorningRoutine
